import Mathlib

/-!
Verification of the Shopping List Consolidation Engine
(`backend/services/shopping_list.py` and the ingredient parsing helper in
`backend/routes/shopping_list_routes.py`) against its natural-language
specification.

All Python numbers are modelled as exact rationals (`ℚ`); the Python
`int`/`float` type distinction is erased.  Strings are modelled through their
character lists (ASCII data throughout the engine).  Fallible Python code
(statements that can raise) is modelled with `Except String`.
-/

namespace SL

set_option maxRecDepth 1000000

-- The Batteries rational-number operations are sealed against unfolding;
-- re-opening them locally lets `decide` evaluate the engine on concrete
-- inputs (the kernel itself never needed the hint).
attribute [local semireducible] Rat.ofScientific Rat.mul Rat.inv Rat.add Rat.sub

deriving instance DecidableEq for Except

/-! ## Character primitives (ASCII, matching Python semantics on this data) -/

def isWsChar (c : Char) : Bool :=
  c = ' ' || c = '\t' || c = '\n' || c = '\x0d' || c = '\x0b' || c = '\x0c'

def isDigitChar (c : Char) : Bool :=
  '0' ≤ c && c ≤ '9'

def isAlphaChar (c : Char) : Bool :=
  ('a' ≤ c && c ≤ 'z') || ('A' ≤ c && c ≤ 'Z')

/-- Python regex `\w` on the ASCII data handled by the engine. -/
def isWordChar (c : Char) : Bool :=
  isAlphaChar c || isDigitChar c || c = '_'

def lcChar (c : Char) : Char :=
  if 'A' ≤ c && c ≤ 'Z' then Char.ofNat (c.toNat + 32) else c

def ucChar (c : Char) : Char :=
  if 'a' ≤ c && c ≤ 'z' then Char.ofNat (c.toNat - 32) else c

/-! ## List-of-characters helpers -/

def isPfx : List Char → List Char → Bool
  | [], _ => true
  | _ :: _, [] => false
  | p :: ps, c :: cs => p = c && isPfx ps cs

/-- Case-insensitive form of `isPfx`. -/
def isPfxCI : List Char → List Char → Bool
  | [], _ => true
  | _ :: _, [] => false
  | p :: ps, c :: cs => lcChar p = lcChar c && isPfxCI ps cs

/-- Python `pat in s` (substring containment) on character lists. -/
def containsList (pat : List Char) : List Char → Bool
  | [] => isPfx pat []
  | c :: cs => isPfx pat (c :: cs) || containsList pat cs

def countWhile (p : Char → Bool) : List Char → Nat
  | [] => 0
  | c :: cs => if p c then countWhile p cs + 1 else 0

/-- Python `str.replace(pat, "")` (all occurrences, non-overlapping,
left to right); `fuel` bounds the recursion by the input length. -/
def replaceAllAux (pat : List Char) : Nat → List Char → List Char
  | _, [] => []
  | 0, l => l
  | fuel + 1, c :: cs =>
    if pat ≠ [] && isPfx pat (c :: cs) then
      replaceAllAux pat fuel ((c :: cs).drop pat.length)
    else
      c :: replaceAllAux pat fuel cs

/-- Python `str.replace(pat, "", 1)` (first occurrence only). -/
def replaceFirstAux (pat : List Char) : Nat → List Char → List Char
  | _, [] => []
  | 0, l => l
  | fuel + 1, c :: cs =>
    if pat ≠ [] && isPfx pat (c :: cs) then (c :: cs).drop pat.length
    else c :: replaceFirstAux pat fuel cs

/-! ## String wrappers -/

def pyLower (s : String) : String := ⟨s.data.map lcChar⟩

def pyStrip (s : String) : String :=
  ⟨((s.data.dropWhile isWsChar).reverse.dropWhile isWsChar).reverse⟩

def strStartsWith (s p : String) : Bool := isPfx p.data s.data

/-- Python `pat in s`. -/
def strContains (s pat : String) : Bool := containsList pat.data s.data

def strReplaceAll (s pat : String) : String :=
  ⟨replaceAllAux pat.data s.data.length s.data⟩

def strReplaceFirst (s pat : String) : String :=
  ⟨replaceFirstAux pat.data s.data.length s.data⟩

/-- Python slicing `s[n:]` (by code points). -/
def strDrop (s : String) (n : Nat) : String := ⟨s.data.drop n⟩

def strLen (s : String) : Nat := s.data.length

/-- Python `str.split()` — split on whitespace runs, dropping empty words. -/
def splitWsAux : Nat → List Char → List (List Char)
  | 0, _ => []
  | _, [] => []
  | fuel + 1, l =>
    let l' := l.dropWhile isWsChar
    match l' with
    | [] => []
    | _ :: _ =>
      let w := l'.takeWhile (fun c => !isWsChar c)
      w :: splitWsAux fuel (l'.drop w.length)

def pySplitWs (s : String) : List String :=
  (splitWsAux (s.data.length + 1) s.data).map (fun l => ⟨l⟩)

/-- Python `str.capitalize()` — first character upper-cased, rest lower-cased. -/
def pyCapitalize (s : String) : String :=
  match s.data with
  | [] => ⟨[]⟩
  | c :: cs => ⟨ucChar c :: cs.map lcChar⟩

/-- Python `" ".join(words)`. -/
def joinSpace : List String → String
  | [] => ""
  | [w] => w
  | w :: ws => w ++ " " ++ joinSpace ws

/-- Python `str.rstrip(c)` for a single strip character. -/
def rstripChar (s : String) (c : Char) : String :=
  ⟨(s.data.reverse.dropWhile (fun d => d = c)).reverse⟩

/-! ## Numeric string parsing and formatting -/

/-- Python `float(s)` restricted to the plain decimal forms the engine feeds
it (optional sign, digits with at most one point; no exponents); returns
`none` where Python raises `ValueError`. -/
def pyFloat (s : String) : Option ℚ :=
  let l := (pyStrip s).data
  let (sign, l) : ℚ × List Char :=
    match l with
    | '-' :: rest => (-1, rest)
    | '+' :: rest => (1, rest)
    | _ => (1, l)
  let intDigits := l.takeWhile isDigitChar
  let rest := l.drop intDigits.length
  match rest with
  | [] =>
    if intDigits = [] then none
    else some (sign * (digitsVal intDigits))
  | '.' :: fracPart =>
    let fracDigits := fracPart.takeWhile isDigitChar
    if fracPart.drop fracDigits.length ≠ [] then none
    else if intDigits = [] && fracDigits = [] then none
    else some (sign * (digitsVal intDigits + fracVal fracDigits))
  | _ => none
where
  digitsVal (l : List Char) : ℚ :=
    l.foldl (fun acc c => acc * 10 + ((c.toNat - '0'.toNat : Nat) : ℚ)) 0
  fracVal (l : List Char) : ℚ :=
    (l.foldr (fun c acc => (((c.toNat - '0'.toNat : Nat) : ℚ) + acc) / 10) 0)

/-- Decimal digit string of a natural number. -/
def natDigits : Nat → Nat → List Char
  | 0, _ => []
  | fuel + 1, n =>
    if n < 10 then [Char.ofNat (n + '0'.toNat)]
    else natDigits fuel (n / 10) ++ [Char.ofNat (n % 10 + '0'.toNat)]

def natStr (n : Nat) : String := ⟨natDigits (n + 1) n⟩

def intStr (n : ℤ) : String :=
  if n < 0 then "-" ++ natStr n.natAbs else natStr n.natAbs

/-- Round-half-even to an integer (the rounding used by Python's fixed-point
float formatting, applied here to the exact rational value). -/
def halfEven (x : ℚ) : ℤ :=
  let f := ⌊x⌋
  let r := x - (f : ℚ)
  if r < 1/2 then f
  else if r > 1/2 then f + 1
  else if f % 2 = 0 then f else f + 1

/-- Python `f"{x:.df}"` on the exact rational value. -/
def fmtFixed (x : ℚ) (d : Nat) : String :=
  let scaled := halfEven (x * (10 ^ d : ℕ))
  let sign : String := if scaled < 0 then "-" else ""
  let n := scaled.natAbs
  if d = 0 then sign ++ natStr n
  else
    let ip := n / 10 ^ d
    let fp := n % 10 ^ d
    let fpStr := natStr fp
    let pad := String.mk (List.replicate (d - strLen fpStr) '0')
    sign ++ natStr ip ++ "." ++ pad ++ fpStr

/-! ## Reference tables (`shopping_list.py` lines 11-89), in source order.
Python dictionaries are modelled as association lists; their keys are unique,
so `lookupFirst` coincides with dictionary lookup, and iteration order is
insertion order as in Python. -/

def lookupFirst (table : List (String × ℚ)) (key : String) : Option ℚ :=
  match table with
  | [] => none
  | (k, v) :: rest => if k = key then some v else lookupFirst rest key

def VOLUME_TO_ML : List (String × ℚ) :=
  [("teaspoon", 4.93), ("tsp", 4.93), ("tablespoon", 14.79), ("tbsp", 14.79),
   ("fluid ounce", 29.57), ("fl oz", 29.57), ("cup", 236.59), ("cups", 236.59),
   ("pint", 473.18), ("pt", 473.18), ("quart", 946.35), ("qt", 946.35),
   ("gallon", 3785.41), ("gal", 3785.41), ("ml", 1), ("milliliter", 1),
   ("milliliters", 1), ("l", 1000), ("liter", 1000), ("liters", 1000)]

def WEIGHT_TO_GRAMS : List (String × ℚ) :=
  [("gram", 1), ("g", 1), ("grams", 1), ("kilogram", 1000), ("kg", 1000),
   ("kilograms", 1000), ("ounce", 28.35), ("oz", 28.35), ("ounces", 28.35),
   ("pound", 453.59), ("lb", 453.59), ("pounds", 453.59)]

def INGREDIENT_DENSITY : List (String × ℚ) :=
  [("water", 1.0), ("milk", 1.03), ("olive oil", 0.92), ("vegetable oil", 0.92),
   ("oil", 0.92), ("flour", 0.53), ("all-purpose flour", 0.53), ("sugar", 0.85),
   ("granulated sugar", 0.85), ("brown sugar", 0.72), ("salt", 1.22),
   ("butter", 0.91), ("honey", 1.42), ("maple syrup", 1.32), ("rice", 0.75),
   ("oats", 0.42), ("yogurt", 1.03)]

def PREFERRED_UNITS : List (String × String) :=
  [("flour", "cups"), ("sugar", "cups"), ("oil", "tablespoons"),
   ("butter", "tablespoons"), ("salt", "teaspoons"), ("milk", "cups"),
   ("water", "cups"), ("chocolate chips", "cups"), ("oats", "cups"),
   ("rice", "cups")]

def COUNT_UNITS : List String :=
  ["", "whole", "piece", "pieces", "count", "can", "cans", "slice", "slices",
   "stalk", "stalks", "clove", "cloves", "bunch", "bunches", "sprig", "sprigs",
   "leaf", "leaves", "ear", "ears", "head", "heads", "loaf", "loaves"]

/-- `for key, value in INGREDIENT_DENSITY.items(): if key in normalized_name:`
— the first density entry whose key is a substring of the name. -/
def findDensity (normalizedName : String) : Option ℚ :=
  densityAux INGREDIENT_DENSITY normalizedName
where
  densityAux : List (String × ℚ) → String → Option ℚ
    | [], _ => none
    | (k, v) :: rest, n => if strContains n k then some v else densityAux rest n

/-! ## `normalize_ingredient_name` (lines 91-112) -/

def normalizePrefixes : List String :=
  ["fresh ", "frozen ", "dried ", "ground ", "chopped ", "sliced ", "diced ",
   "minced ", "grated ", "shredded ", "whole "]

def normalizeSuffixes : List String :=
  [", sliced", ", chopped", ", diced", ", minced", ", grated",
   ", for garnish", ", to taste", ", optional"]

def normalize_ingredient_name (name : String) : String :=
  let n := pyStrip (pyLower name)
  -- each matching leading word is removed via `name.replace(prefix, "", 1)`
  let n := normalizePrefixes.foldl
    (fun n p => if strStartsWith n p then strReplaceFirst n p else n) n
  -- each matching suffix is removed everywhere via `name.replace(suffix, "")`
  let n := normalizeSuffixes.foldl
    (fun n suf => if strContains n suf then strReplaceAll n suf else n) n
  pyStrip n

/-! ## `is_liquid` (lines 114-124) -/

def liquidWords : List String :=
  ["water", "milk", "juice", "oil", "vinegar", "wine", "beer", "stock",
   "broth", "cream", "sauce", "syrup", "honey", "liquor", "vodka", "whiskey"]

def is_liquid (name : String) : Bool :=
  liquidWords.any (fun w => strContains name w)

/-! ## Whole-word occurrence tests for `determine_best_unit`'s regexes -/

/-- Occurrence of `w` in `s` with a word boundary on both sides
(regex `\bw\b` searched anywhere). -/
def hasWord (s w : String) : Bool :=
  wordAux none s.data
where
  wordAux : Option Char → List Char → Bool
    | _, [] => false
    | prev, c :: cs =>
      (boundaryBefore prev && isPfx w.data (c :: cs) && boundaryAfterAt ((c :: cs).drop w.data.length))
      || wordAux (some c) cs
  boundaryBefore : Option Char → Bool
    | none => true
    | some p => !isWordChar p
  boundaryAfterAt : List Char → Bool
    | [] => true
    | d :: _ => !isWordChar d

/-- Occurrence of `w` in `s` with a word boundary before it only
(regex fragment `\bw` as in the pattern `\bleaf|leaves\b`). -/
def hasWordStart (s w : String) : Bool :=
  startAux none s.data
where
  startAux : Option Char → List Char → Bool
    | _, [] => false
    | prev, c :: cs =>
      ((match prev with | none => true | some p => !isWordChar p)
        && isPfx w.data (c :: cs))
      || startAux (some c) cs

/-- Occurrence of `w` in `s` with a word boundary after it only
(regex fragment `leaves\b`). -/
def hasWordEnd (s w : String) : Bool :=
  endAux s.data
where
  endAux : List Char → Bool
    | [] => false
    | c :: cs =>
      (isPfx w.data (c :: cs) &&
        (match (c :: cs).drop w.data.length with
         | [] => true
         | d :: _ => !isWordChar d))
      || endAux cs

/-- The `count_patterns` regex list of `determine_best_unit` (lines 147-151):
`\bcan(s)?\b`, ..., `\bleaf|leaves\b`, ..., `\bwhole\b`, `\bpiece(s)?\b`. -/
def countPatternMatch (s : String) : Bool :=
  (hasWord s "can" || hasWord s "cans") ||
  (hasWord s "stalk" || hasWord s "stalks") ||
  (hasWord s "slice" || hasWord s "slices") ||
  (hasWord s "clove" || hasWord s "cloves") ||
  (hasWord s "bunch" || hasWord s "bunches") ||
  (hasWord s "sprig" || hasWord s "sprigs") ||
  -- `\bleaf|leaves\b` is the alternation (`\bleaf`) or (`leaves\b`)
  (hasWordStart s "leaf" || hasWordEnd s "leaves") ||
  (hasWord s "ear" || hasWord s "ears") ||
  (hasWord s "head" || hasWord s "heads") ||
  (hasWordStart s "loaf" || hasWordEnd s "loaves") ||
  hasWord s "whole" ||
  (hasWord s "piece" || hasWord s "pieces")

def countItems : List String :=
  ["egg", "eggs", "banana", "apple", "orange", "potato", "onion", "tomato"]

/-! ## `determine_best_unit` (lines 126-187) -/

def lookupPreferred : List (String × String) → String → Option String
  | [], _ => none
  | (k, v) :: rest, n => if strContains n k then some v else lookupPreferred rest n

def determine_best_unit (name : String) (is_liquid_flag : Bool) (quantity : ℚ)
    (original_unit : String) : String :=
  if original_unit ≠ "" && (pyLower original_unit) ∈ COUNT_UNITS then "count"
  else
    let normalized_name := normalize_ingredient_name name
    if countPatternMatch normalized_name then "count"
    else if countItems.any (fun item => strContains normalized_name item) then "count"
    else
      match lookupPreferred PREFERRED_UNITS normalized_name with
      | some u => u
      | none =>
        if is_liquid_flag then
          if quantity < 15 then "teaspoon"
          else if quantity < 60 then "tablespoon"
          else if quantity < 1000 then "cup"
          else "liter"
        else
          if quantity < 10 then "teaspoon"
          else if quantity < 30 then "tablespoon"
          else if quantity < 500 then
            if normalized_name ∈ ["flour", "sugar", "rice", "oats"] then "cup" else "grams"
          else "kg"

/-! ## Anchored pattern matchers for `clean_ingredient_name`'s regexes

A matcher consumes a prefix of the character list and returns the remainder,
or `none` when the pattern does not match at the start.  Literals match
case-insensitively (all the substitutions carry `re.IGNORECASE`). -/

def mlit (w : String) (l : List Char) : Option (List Char) :=
  if isPfxCI w.data l then some (l.drop w.data.length) else none

def mseq (m1 m2 : List Char → Option (List Char)) (l : List Char) :
    Option (List Char) :=
  (m1 l).bind m2

def malt (m1 m2 : List Char → Option (List Char)) (l : List Char) :
    Option (List Char) :=
  match m1 l with
  | some r => some r
  | none => m2 l

/-- Regex `\s+`. -/
def ws1 (l : List Char) : Option (List Char) :=
  let k := countWhile isWsChar l
  if k = 0 then none else some (l.drop k)

/-- Regex `\s*`. -/
def ws0 (l : List Char) : Option (List Char) :=
  some (l.dropWhile isWsChar)

/-- Regex `\d+`. -/
def digits1 (l : List Char) : Option (List Char) :=
  let k := countWhile isDigitChar l
  if k = 0 then none else some (l.drop k)

/-- Regex `[\d/]+`. -/
def qtyClass1 (l : List Char) : Option (List Char) :=
  let k := countWhile (fun c => isDigitChar c || c = '/') l
  if k = 0 then none else some (l.drop k)

/-- Regex fragment `\s+of\s+`. -/
def wsOf (l : List Char) : Option (List Char) :=
  mseq ws1 (mseq (mlit "of") ws1) l

/-- Optional `s` followed by the given tail: regex `s?⟨tail⟩`. -/
def sOpt (tail : List Char → Option (List Char)) (l : List Char) :
    Option (List Char) :=
  malt (mseq (mlit "s") tail) tail l

/-- Regex `^[\d/]+ ⟨u⟩s?\s+`. -/
def unitPatS (u : String) (l : List Char) : Option (List Char) :=
  mseq qtyClass1 (mseq (mlit " ") (mseq (mlit u) (sOpt ws1))) l

/-- Regex `^[\d/]+ ⟨u⟩\s+` (no plural). -/
def unitPat (u : String) (l : List Char) : Option (List Char) :=
  mseq qtyClass1 (mseq (mlit " ") (mseq (mlit u) ws1)) l

/-- Regex `^[\d/]+ ⟨u⟩s?\s+of\s+`. -/
def unitPatSOf (u : String) (l : List Char) : Option (List Char) :=
  mseq qtyClass1 (mseq (mlit " ") (mseq (mlit u) (sOpt wsOf))) l

/-- Regex `^[\d/]+ bunche?s?\s+` (or `...\s+of\s+` with `tail := wsOf`). -/
def bunchPat (tail : List Char → Option (List Char)) (l : List Char) :
    Option (List Char) :=
  mseq qtyClass1 (mseq (mlit " ")
    (mseq (mlit "bunch") (malt (mseq (mlit "e") (sOpt tail)) (sOpt tail)))) l

/-- Regex `^⟨w⟩\s+` for plain filler-word patterns. -/
def litPat (w : String) (l : List Char) : Option (List Char) :=
  mseq (mlit w) ws1 l

/-- The `prefixes_to_remove` list (lines 332-379), in source order. -/
def cleanPfxPats : List (List Char → Option (List Char)) :=
  [ mseq digits1 ws1,                                         -- ^\d+\s+
    mseq digits1 (mseq ws0 (mseq (mlit "-") (mseq ws0 (mseq digits1 ws1)))),
    mseq digits1 (mseq ws0 (mseq (mlit "to") (mseq ws0 (mseq digits1 ws1)))),
    unitPatS "cup", unitPatS "tablespoon", unitPatS "teaspoon",
    unitPatS "tsp", unitPatS "tbsp", unitPatS "ounce", unitPat "oz",
    unitPatS "pound", unitPatS "lb", unitPatS "kilogram", unitPatS "gram",
    unitPat "g", unitPatS "milliliter", unitPat "ml", unitPatS "liter",
    unitPat "l",
    unitPatSOf "can", unitPatS "can",
    unitPatSOf "slice", unitPatS "slice",
    unitPatSOf "stalk", unitPatS "stalk",
    unitPatSOf "clove", unitPatS "clove",
    bunchPat wsOf, bunchPat ws1,
    unitPatSOf "sprig", unitPatS "sprig",
    unitPatSOf "leave", unitPatS "leave",
    unitPatSOf "head", unitPatS "head",
    mseq qtyClass1 (mseq ws0 (mseq (mlit "-") (mseq ws0 (mseq qtyClass1 ws1)))),
    mseq qtyClass1 (mseq ws0 (mseq (mlit "to") (mseq ws0 (mseq qtyClass1 ws1)))),
    litPat "for the", litPat "for", litPat "the", litPat "of",
    litPat "approximately", litPat "about", litPat "around",
    litPat "or so", litPat "to taste" ]

/-- `re.sub(anchored_pattern, '', name)` — at most one removal, at the start. -/
def applyPat (m : List Char → Option (List Char)) (s : String) : String :=
  match m s.data with
  | some rest => ⟨rest⟩
  | none => s

/-! ## The other pieces of `clean_ingredient_name` -/

def unit_words : List String :=
  COUNT_UNITS ++ ["teaspoon", "tablespoon", "cup", "tsp", "tbsp",
                  "ounce", "gram", "milliliter", "liter", "pound", "kilogram"]

/-- The leading-unit-word loop (lines 321-329): conditions are evaluated on
`name_lower` (the lower-casing of the *original* name) while the slicing is
performed on the current name; the loop stops at the first removal. -/
def stripUnitWord (nameLower name : String) : String :=
  go unit_words
where
  go : List String → String
    | [] => name
    | u :: rest =>
      if strStartsWith nameLower (pyLower u ++ " ") then
        strDrop name (strLen u + 1)
      else if u ≠ "tsp" && u ≠ "tbsp" && strStartsWith nameLower (pyLower u ++ "s ") then
        strDrop name (strLen u + 2)
      else go rest

/-- One step of the count-unit loop (lines 382-386): the search runs on the
stale `name_lower`, the substitution (`^unit\b\s*`, `re.IGNORECASE`) on the
current name.  The empty-string entry of `COUNT_UNITS` yields the pattern
`^\b\s*`, which never removes any character. -/
def stripCountUnitStep (nameLower : String) (name : String) (u : String) : String :=
  if u = "" then name
  else if condOn nameLower u then subOn name u
  else name
where
  boundaryAfter (rest : List Char) : Bool :=
    match rest with
    | [] => true
    | d :: _ => !isWordChar d
  condOn (nl u : String) : Bool :=
    isPfx u.data nl.data && boundaryAfter (nl.data.drop u.data.length)
  subOn (nm u : String) : String :=
    if isPfxCI u.data nm.data && boundaryAfter (nm.data.drop u.data.length) then
      ⟨(nm.data.drop u.data.length).dropWhile isWsChar⟩
    else nm

def stripCountUnits (nameLower name : String) : String :=
  COUNT_UNITS.foldl (stripCountUnitStep nameLower) name

/-- Given a confirmed suffix match starting right after `pre`, remove the
leading `,?\s+` part of the suffix pattern (the `\s+` is mandatory). -/
def stripTailAfter (pre : List Char) (orig : String) : String :=
  let w := countWhile isWsChar pre.reverse
  if w = 0 then orig
  else
    let pre2 := pre.take (pre.length - w)
    match pre2.reverse with
    | ',' :: rest => ⟨rest.reverse⟩
    | _ => ⟨pre2⟩

def endsWithCI (core : String) (l : List Char) : Bool :=
  core.data.length ≤ l.length && isPfxCI core.data (l.drop (l.length - core.data.length))

/-- `re.sub(r',?\s+core$', '', s, re.IGNORECASE)`. -/
def stripSuffixCore (core : String) (s : String) : String :=
  let l := s.data
  if endsWithCI core l then
    stripTailAfter (l.take (l.length - core.data.length)) s
  else s

/-- `re.sub(r',?\s+lit \w+$', '', s, re.IGNORECASE)`. -/
def stripSuffixW (lit : String) (s : String) : String :=
  let l := s.data
  let w := countWhile isWordChar l.reverse
  if w = 0 then s
  else
    let mid := l.take (l.length - w)
    let core := lit ++ " "
    if endsWithCI core mid then
      stripTailAfter (mid.take (mid.length - core.data.length)) s
    else s

/-- The `suffixes_to_remove` list (lines 393-412), in source order. -/
def cleanSufPats : List (String → String) :=
  [ stripSuffixCore "divided",
    stripSuffixW "plus more for",
    stripSuffixW "plus extra for",
    stripSuffixCore "plus more as needed",
    stripSuffixCore "plus extra",
    stripSuffixCore "optional",
    stripSuffixCore "to serve",
    stripSuffixCore "for serving",
    stripSuffixCore "for garnish",
    stripSuffixCore "for the top",
    stripSuffixCore "for decoration",
    stripSuffixCore "to taste",
    stripSuffixCore "or to taste",
    stripSuffixCore "(divided)",
    stripSuffixCore "(optional)",
    stripSuffixCore "(to serve)",
    stripSuffixCore "(for serving)",
    stripSuffixCore "(for garnish)" ]

/-! ## Embedded numeric-range removal (lines 419-420) -/

def boundaryBefore : Option Char → Bool
  | none => true
  | some p => !isWordChar p

/-- Attempt `\d+⟨sep⟩\d+\b` at the current position; returns the remainder
after the match.  The final character of any match is a digit. -/
def tryRange (sep : List Char → Option (List Char)) (l : List Char) :
    Option (List Char) :=
  let d1 := countWhile isDigitChar l
  if d1 = 0 then none
  else
    match sep (l.drop d1) with
    | none => none
    | some r2 =>
      let d2 := countWhile isDigitChar r2
      if d2 = 0 then none
      else
        let r3 := r2.drop d2
        match r3 with
        | [] => some r3
        | d :: _ => if isWordChar d then none else some r3

/-- Global `re.sub(r'\b\d+⟨sep⟩\d+\b', '', ·)` scan; after a removal the scan
resumes after the match (whose last character is a digit, recorded as the
previous character for the next boundary test). -/
def rangeScan (sep : List Char → Option (List Char)) :
    Nat → Option Char → List Char → List Char
  | 0, _, l => l
  | _ + 1, _, [] => []
  | fuel + 1, prev, c :: cs =>
    match (if boundaryBefore prev then tryRange sep (c :: cs) else none) with
    | some rest => rangeScan sep fuel (some '0') rest
    | none => c :: rangeScan sep fuel (some c) cs

/-- Separator `\s*-\s*`. -/
def sepDash (l : List Char) : Option (List Char) :=
  mseq ws0 (mseq (mlit "-") ws0) l

/-- Separator `\s*to\s*` (this substitution carries no `re.IGNORECASE`). -/
def sepTo (l : List Char) : Option (List Char) :=
  mseq ws0 (fun r => if isPfx "to".data r then some (r.drop 2) else none) l |>.bind ws0

/-! ## `clean_ingredient_name` (lines 304-427) -/

def titleSmallWords : List String := ["and", "or", "of", "the", "with"]

def capWord (w : String) : String :=
  if pyLower w ∈ titleSmallWords then pyLower w else pyCapitalize w

def clean_ingredient_name (name : String) : String :=
  let name_lower := pyLower name
  let n1 := stripUnitWord name_lower name
  let n2 := stripCountUnits name_lower n1
  let n3 := cleanPfxPats.foldl (fun nm m => applyPat m nm) n2
  let n4 := cleanSufPats.foldl (fun nm f => f nm) n3
  let n5 : String := ⟨rangeScan sepDash (n4.data.length + 1) none n4.data⟩
  let n6 : String := ⟨rangeScan sepTo (n5.data.length + 1) none n5.data⟩
  let words := pySplitWs n6
  let n7 := if words.isEmpty then n6 else joinSpace (words.map capWord)
  pyStrip n7

/-! ## `convert_to_standard_unit` (lines 189-244) -/

def countWordsInClean : List String :=
  ["can", "stalk", "slice", "clove", "bunch", "sprig", "leaf", "head", "loaf"]

/-- The `if not unit:` early-return test of lines 193-197. -/
def hasCountWordInClean (ingredient_name : String) : Bool :=
  countWordsInClean.any
    (fun w => strContains (pyLower (clean_ingredient_name ingredient_name)) w)

/-- Lines 216-244: the `if liquid / elif not liquid` conversion chain.  The
three branches each test `liquid`/`not liquid` first, so the chain splits
cleanly on `liquid`; a miss falls through to the final
`return quantity, unit` with `unit` already rebound to its lower-cased,
stripped, tbsp/tsp-normalized form `u2`. -/
def convertByTables (quantity : ℚ) (u2 : String) (liquid : Bool)
    (ingredient_name : String) : ℚ × String :=
  if liquid then
    match lookupFirst VOLUME_TO_ML u2 with
    | some mlFactor => (quantity * mlFactor, "ml")
    | none => (quantity, u2)
  else
    match lookupFirst WEIGHT_TO_GRAMS u2 with
    | some gFactor => (quantity * gFactor, "g")
    | none =>
      match lookupFirst VOLUME_TO_ML u2 with
      | some mlFactor =>
        match findDensity (normalize_ingredient_name ingredient_name) with
        | some density => (quantity * mlFactor * density, "g")
        | none => (quantity * mlFactor, "ml")
      | none => (quantity, u2)

def convert_to_standard_unit (quantity : ℚ) (unit : String)
    (ingredient_name : String) : ℚ × String :=
  if unit = "" && hasCountWordInClean ingredient_name then (quantity, "count")
  else
    let u0 := pyStrip (pyLower unit)
    if u0 ∈ COUNT_UNITS then (quantity, "count")
    else
      let u1 := if u0 = "tablespoon" || u0 = "tablespoons" then "tbsp" else u0
      let u2 := if u1 = "teaspoon" || u1 = "teaspoons" then "tsp" else u1
      convertByTables quantity u2 (is_liquid ingredient_name) ingredient_name

/-! ## `format_quantity` (lines 246-271) -/

def format_quantity (quantity : ℚ) (unit : String) : String :=
  if unit = "count" then
    if quantity.den = 1 then intStr quantity.num else fmtFixed quantity 1
  else if quantity < 10 then
    if |quantity - 0.25| < 0.01 then "1/4"
    else if |quantity - 0.5| < 0.01 then "1/2"
    else if |quantity - 0.75| < 0.01 then "3/4"
    else if |quantity - 0.33| < 0.01 then "1/3"
    else if |quantity - 0.67| < 0.01 then "2/3"
    else rstripChar (rstripChar (fmtFixed quantity 2) '0') '.'
  else
    rstripChar (rstripChar (fmtFixed quantity 1) '0') '.'

/-! ## `convert_from_standard_unit` (lines 273-302) -/

def convert_from_standard_unit (quantity : ℚ) (std_unit target_unit : String)
    (ingredient_name : String) : ℚ :=
  if std_unit = "count" || target_unit = "count" then quantity
  else if std_unit = "ml" then
    match lookupFirst VOLUME_TO_ML target_unit with
    | some mlFactor => quantity / mlFactor
    | none => quantity
  else if std_unit = "g" then
    match lookupFirst WEIGHT_TO_GRAMS target_unit with
    | some gFactor => quantity / gFactor
    | none =>
      match lookupFirst VOLUME_TO_ML target_unit with
      | some mlFactor =>
        match findDensity (normalize_ingredient_name ingredient_name) with
        | some density => quantity / density / mlFactor
        | none => quantity   -- no density entry: fall out to `return quantity`
      | none => quantity
  else quantity

/-! ## `determine_category` (lines 668-729) -/

def CATEGORY_RULES : List (String × List String) :=
  [("Produce",
    ["lettuce", "spinach", "kale", "arugula", "cabbage", "carrot", "onion",
     "garlic", "potato", "tomato", "pepper", "cucumber", "zucchini", "squash",
     "pumpkin", "broccoli", "cauliflower", "corn", "pea", "bean", "lentil",
     "fruit", "apple", "banana", "orange", "berry", "lemon", "lime", "herb",
     "cilantro", "parsley", "basil", "mint", "thyme", "rosemary", "avocado",
     "mushroom"]),
   ("Dairy", ["milk", "cream", "cheese", "yogurt", "butter", "egg", "margarine"]),
   ("Meat", ["beef", "steak", "chicken", "pork", "ham", "bacon", "sausage",
             "turkey", "meat", "lamb", "veal"]),
   ("Seafood", ["fish", "salmon", "tuna", "shrimp", "prawn", "crab", "lobster",
                "clam", "mussel", "oyster", "scallop", "seafood"]),
   ("Baking & Spices", ["flour", "sugar", "baking powder", "baking soda",
                        "yeast", "salt", "pepper", "spice", "cinnamon",
                        "vanilla", "cocoa", "chocolate", "extract"]),
   ("Grains & Pasta", ["rice", "pasta", "noodle", "spaghetti", "macaroni",
                       "bread", "cereal", "oat", "quinoa", "barley", "grain"]),
   ("Canned Goods", ["can", "canned", "jar", "preserved", "soup", "broth", "stock"]),
   ("Frozen", ["frozen", "ice cream", "popsicle"]),
   ("Condiments & Sauces", ["sauce", "ketchup", "mustard", "mayo", "mayonnaise",
                            "vinegar", "oil", "dressing", "syrup", "honey",
                            "jam", "jelly"]),
   ("Beverages", ["water", "juice", "soda", "tea", "coffee", "wine", "beer",
                  "alcohol", "drink"]),
   ("Snacks", ["chip", "cracker", "nut", "seed", "snack", "popcorn", "pretzel"])]

def determine_category (name : String) : String :=
  let n := pyLower name
  go CATEGORY_RULES n
where
  go : List (String × List String) → String → String
    | [], _ => "Other"
    | (cat, words) :: rest, n =>
      if words.any (fun w => strContains n w) then cat else go rest n

/-! ## Display-text cleanup passes (lines 642-645) -/

/-- Global `re.sub(r'(\b\w+\b)\s+\1\b', r'\1', ·, re.IGNORECASE)`: collapse an
immediately repeated word (the replacement is the first occurrence); the scan
resumes after each match. -/
def dupWordScan : Nat → Option Char → List Char → List Char
  | 0, _, l => l
  | _ + 1, _, [] => []
  | fuel + 1, prev, c :: cs =>
    let l := c :: cs
    let attempt : Option (List Char × List Char) :=
      if boundaryBefore prev && isWordChar c then
        let w := l.takeWhile isWordChar
        let rest := l.drop w.length
        let k := countWhile isWsChar rest
        if k = 0 then none
        else
          let rest2 := rest.drop k
          if isPfxCI w rest2 then
            match rest2.drop w.length with
            | [] => some (w, [])
            | d :: ds => if isWordChar d then none else some (w, d :: ds)
          else none
      else none
    match attempt with
    | some (w, rest3) =>
      -- the last matched character is a word character
      w ++ dupWordScan fuel (some 'a') rest3
    | none => c :: dupWordScan fuel (some c) cs

/-- Global `re.sub(r'\bof\s+of\b', 'of', ·, re.IGNORECASE)`. -/
def ofOfScan : Nat → Option Char → List Char → List Char
  | 0, _, l => l
  | _ + 1, _, [] => []
  | fuel + 1, prev, c :: cs =>
    let l := c :: cs
    let attempt : Option (List Char) :=
      if boundaryBefore prev && isPfxCI "of".data l then
        let rest := l.drop 2
        let k := countWhile isWsChar rest
        if k = 0 then none
        else
          let rest2 := rest.drop k
          if isPfxCI "of".data rest2 then
            match rest2.drop 2 with
            | [] => some []
            | d :: ds => if isWordChar d then none else some (d :: ds)
          else none
      else none
    match attempt with
    | some rest3 => 'o' :: 'f' :: ofOfScan fuel (some 'f') rest3
    | none => c :: ofOfScan fuel (some c) cs

/-! ## Data model of `generate_shopping_list` (lines 429-666) -/

/-- A JSON field value as far as the engine distinguishes them: a number or a
string.  The Python `int`/`float` distinction is erased into `ℚ`. -/
inductive PyVal where
  | num (q : ℚ)
  | str (s : String)
deriving DecidableEq, Repr

def pyFalsy : PyVal → Bool
  | .num q => q = 0
  | .str s => s = ""

structure Ingredient where
  /-- `ingredient.get('name', '')`; an absent name is `.str ""`. -/
  name : PyVal
  /-- `ingredient.get('amount', 0)`; an absent amount is `.num 0`. -/
  amount : PyVal
  /-- `ingredient.get('unit', '')`. -/
  unit : String
deriving DecidableEq, Repr

structure Recipe where
  /-- `recipe.get('servings', 1)`; `none` models an absent key. -/
  servings : Option PyVal
  /-- `recipe.get('extendedIngredients', [])`. -/
  extendedIngredients : List Ingredient
deriving DecidableEq, Repr

structure Bucket where
  name : String
  std_quantity : ℚ
  std_unit : String
  original_unit : String
  is_liquid : Bool
deriving DecidableEq, Repr

/-- The `standardized_ingredients` dictionary: an association list in
insertion order (Python dictionaries preserve insertion order; assignment to
an existing key replaces its value in place). -/
def Buckets := List (String × Bucket)

structure Item where
  /-- A fresh `uuid4` fragment in the source; modelled as an opaque constant
  since no claim (and no other part of the engine) observes it. -/
  id : String
  name : String
  amount : ℚ
  formatted_amount : String
  unit : String
  display_text : String
  category : String
  checked : Bool
  standardizedDisplay : String
deriving DecidableEq, Repr

def lookupBucket : List (String × Bucket) → String → Option Bucket
  | [], _ => none
  | (k, b) :: rest, key => if k = key then some b else lookupBucket rest key

/-- Dictionary assignment `d[k] = b`: replace in place or append. -/
def setBucket : List (String × Bucket) → String → Bucket → List (String × Bucket)
  | [], k, b => [(k, b)]
  | (k', b') :: rest, k, b =>
    if k' = k then (k, b) :: rest else (k', b') :: setBucket rest k b

/-- `d[k]['std_quantity'] += q`. -/
def addQty : List (String × Bucket) → String → ℚ → List (String × Bucket)
  | [], _, _ => []
  | (k', b') :: rest, k, q =>
    if k' = k then (k', { b' with std_quantity := b'.std_quantity + q }) :: rest
    else (k', b') :: addQty rest k q

/-! ## The per-ingredient aggregation step (lines 461-559) -/

/-- Lines 475-481: `ingredient.get('amount', 0)` with the string-to-float
attempt whose `ValueError` is caught and turned into 0. -/
def ingQuantity (ing : Ingredient) : ℚ :=
  match ing.amount with
  | .num q => q
  | .str s => (pyFloat s).getD 0

/-- Lines 467-472: the display name — the cleaned name, or the raw name when
cleaning produced the empty string. -/
def cleanOr (nm : String) : String :=
  if clean_ingredient_name nm = "" then nm else clean_ingredient_name nm

/-- Lines 496-559: insertion of one standardized contribution into the
bucket dictionary, including the unit-mismatch reconciliation. -/
def aggregateStep (bkts : List (String × Bucket))
    (normalized_name clean_name : String) (std_quantity : ℚ)
    (std_unit unit : String) : List (String × Bucket) :=
  match lookupBucket bkts normalized_name with
  | none =>
    bkts ++ [(normalized_name,
      { name := clean_name, std_quantity := std_quantity,
        std_unit := std_unit, original_unit := unit,
        is_liquid := is_liquid normalized_name })]
  | some existing =>
    if existing.std_unit ≠ std_unit then
      if existing.std_unit = "ml" && std_unit = "g" then
        match findDensity normalized_name with
        | some density =>
          addQty (setBucket bkts normalized_name
            { existing with
              std_quantity := existing.std_quantity * density,
              std_unit := "g" }) normalized_name std_quantity
        | none =>
          setBucket bkts (normalized_name ++ " (in " ++ std_unit ++ ")")
            { name := clean_name, std_quantity := std_quantity,
              std_unit := std_unit, original_unit := unit,
              is_liquid := is_liquid normalized_name }
      else if existing.std_unit = "g" && std_unit = "ml" then
        match findDensity normalized_name with
        | some density => addQty bkts normalized_name (std_quantity * density)
        | none =>
          setBucket bkts (normalized_name ++ " (in " ++ std_unit ++ ")")
            { name := clean_name, std_quantity := std_quantity,
              std_unit := std_unit, original_unit := unit,
              is_liquid := is_liquid normalized_name }
      else
        -- mismatched units other than ml/g: the quantities are summed
        addQty bkts normalized_name std_quantity
    else
      addQty bkts normalized_name std_quantity

def processIngredient (bkts : List (String × Bucket)) (ing : Ingredient) :
    Except String (List (String × Bucket)) :=
  if pyFalsy ing.name then .ok bkts            -- `if not name: continue`
  else
    match ing.name with
    | .num _ =>
      -- `clean_ingredient_name` immediately calls `name.lower()`
      .error "AttributeError: int object has no attribute lower"
    | .str nm =>
      if ingQuantity ing ≤ 0 then .ok bkts     -- `if quantity <= 0: continue`
      else
        let sq := convert_to_standard_unit (ingQuantity ing) ing.unit
          (normalize_ingredient_name nm)
        .ok (aggregateStep bkts (normalize_ingredient_name nm) (cleanOr nm)
          sq.1 sq.2 ing.unit)

/-- The servings handling (lines 450-452): `if not servings or servings <= 0`
raises `TypeError` when `servings` is a non-empty string (the comparison with
`0`); the resulting local is otherwise unused. -/
def checkServings (r : Recipe) : Except String Unit :=
  match r.servings with
  | none => .ok ()
  | some (.num _) => .ok ()
  | some (.str s) =>
    if s = "" then .ok ()
    else .error "TypeError: unorderable types str and int"

def processRecipe (bkts : List (String × Bucket)) (r : Recipe) :
    Except String (List (String × Bucket)) :=
  (checkServings r).bind fun _ =>
    if r.extendedIngredients.isEmpty then .ok bkts   -- `continue`
    else
      r.extendedIngredients.foldl
        (fun acc i => acc.bind (fun b => processIngredient b i)) (.ok bkts)

/-! ## Display construction (lines 561-661) -/

def displayCountUnits : List String :=
  ["can", "slice", "stalk", "clove", "bunch", "sprig", "head"]

def buildItem (normalized_name : String) (data : Bucket) : Item :=
  let display_unit :=
    determine_best_unit data.name data.is_liquid data.std_quantity data.original_unit
  let display_quantity :=
    convert_from_standard_unit data.std_quantity data.std_unit display_unit normalized_name
  let formatted_quantity := format_quantity display_quantity display_unit
  let display_text :=
    if display_unit = "count" then
      match displayCountUnits.find? (fun u => strContains (pyLower normalized_name) u) with
      | some detected =>
        let cn := data.name
        let cn :=
          if strStartsWith (pyLower cn) (detected ++ " ") then
            strDrop cn (strLen detected + 1)
          else if strStartsWith (pyLower cn) (detected ++ "s ") then
            strDrop cn (strLen detected + 2)
          else cn
        let unitSuffix :=
          match pyFloat formatted_quantity with
          | some v => if v = 1 then "" else "s"
          | none => "s"                        -- fractions such as "1/2"
        formatted_quantity ++ " " ++ pyCapitalize detected ++ unitSuffix ++ " of " ++ cn
      | none => formatted_quantity ++ " " ++ data.name
    else
      let unit_display :=
        if display_unit = "teaspoon" then "tsp"
        else if display_unit = "tablespoon" then "tbsp"
        else if display_unit = "grams" then "g"
        else if display_unit = "milliliters" then "ml"
        else display_unit
      formatted_quantity ++ " " ++ unit_display ++ " " ++ data.name
  let standardizedDisplay :=
    if data.std_unit = "count" then
      format_quantity data.std_quantity data.std_unit ++ " " ++ data.name
    else
      format_quantity data.std_quantity data.std_unit ++ " " ++ data.std_unit
        ++ " " ++ data.name
  let dt1 : String := ⟨dupWordScan (display_text.data.length + 1) none display_text.data⟩
  let dt2 : String := ⟨ofOfScan (dt1.data.length + 1) none dt1.data⟩
  { id := "", name := data.name, amount := display_quantity,
    formatted_amount := formatted_quantity, unit := display_unit,
    display_text := dt2, category := determine_category normalized_name,
    checked := false, standardizedDisplay := standardizedDisplay }

/-! ## Sorting and the top-level engine -/

/-- The sort key `lambda x: (x['category'], x['name'])` with Python's
lexicographic tuple-and-string comparison. -/
def itemLe (a b : Item) : Prop :=
  toLex (a.category, a.name) ≤ toLex (b.category, b.name)

instance : DecidableRel itemLe := fun a b =>
  inferInstanceAs (Decidable (toLex (a.category, a.name) ≤ toLex (b.category, b.name)))

/-- `shopping_list.sort(key=...)`: Python's stable ascending sort; a stable
sort for a total preorder is extensionally unique, so insertion sort computes
the same list. -/
def sortItems (l : List Item) : List Item := l.insertionSort itemLe

def aggregate (recipes : List Recipe) : Except String (List (String × Bucket)) :=
  recipes.foldl (fun acc r => acc.bind (fun b => processRecipe b r)) (.ok [])

def generate_shopping_list (recipes : List Recipe) : Except String (List Item) :=
  if recipes.isEmpty then .ok []               -- `if not recipes: return []`
  else
    (aggregate recipes).map
      (fun bkts => sortItems (bkts.map (fun p => buildItem p.1 p.2)))

/-- The engine with the caller-owned objects threaded as a mutable store: the
input list of recipe objects is the heap, every loop step reads from it and
passes it on; the source contains no assignment into these objects. -/
def generate_shopping_list_heap (heap : List Recipe) :
    List Recipe × Except String (List Item) :=
  if heap.isEmpty then (heap, .ok [])
  else
    let st := heap.foldl
      (fun (st : List Recipe × Except String (List (String × Bucket))) r =>
        (st.1, st.2.bind (fun b => processRecipe b r)))
      (heap, .ok [])
    (st.1, st.2.map
      (fun bkts => sortItems (bkts.map (fun p => buildItem p.1 p.2))))

/-! ## `parse_ingredient` (`routes/shopping_list_routes.py` lines 13-50)

The pattern `^([\d\/\.\s]+)?\s*([a-zA-Z]+\s+)?\s*(.+)$` is embedded with its
exact backtracking order: each greedy piece tries its longest extent first,
the optional groups try matching before skipping, and backtracking proceeds
from the innermost piece outwards. -/

/-- Try `f n`, `f (n-1)`, ..., `f 0`, returning the first success. -/
def firstDesc (f : Nat → Option β) : Nat → Option β
  | 0 => f 0
  | k + 1 =>
    match f (k + 1) with
    | some r => some r
    | none => firstDesc f k

def charClassG1 (c : Char) : Bool :=
  isDigitChar c || c = '/' || c = '.' || isWsChar c

/-- Match `\s*([a-zA-Z]+\s+)?\s*(.+)$` against `l`, returning the group-2
capture and the group-3 capture. -/
def matchAfterG1 (l : List Char) : Option (Option (List Char) × List Char) :=
  firstDesc (fun j =>
    let l2 := l.drop j
    let present :=
      firstDesc (fun a =>
        if a = 0 then none
        else
          let l2a := l2.drop a
          firstDesc (fun b =>
            if b = 0 then none
            else
              let l3 := l2a.drop b
              firstDesc (fun m =>
                let l4 := l3.drop m
                if l4.isEmpty then none
                else some (some (l2.take (a + b)), l4))
                (countWhile isWsChar l3))
            (countWhile isWsChar l2a))
        (countWhile isAlphaChar l2)
    match present with
    | some res => some res
    | none =>
      firstDesc (fun m =>
        let l4 := l2.drop m
        if l4.isEmpty then none else some (none, l4))
        (countWhile isWsChar l2))
    (countWhile isWsChar l)

/-- `re.match(pattern, r)`: `none` when there is no match (only possible for
an empty string, since `(.+)$` is the only mandatory piece). -/
def pyMatchGroups (r : List Char) :
    Option (Option (List Char) × Option (List Char) × List Char) :=
  if r.isEmpty then none
  else
    let withG1 :=
      firstDesc (fun k =>
        if k = 0 then none
        else (matchAfterG1 (r.drop k)).map
          (fun res => (some (r.take k), res.1, res.2)))
        (countWhile charClassG1 r)
    match withG1 with
    | some res => some res
    | none =>
      match matchAfterG1 r with
      | some res => some (none, res.1, res.2)
      | none => none

/-- Python `str.split(sep)` for a single-character separator (keeps empty
pieces). -/
def splitOnChar (sep : Char) : List Char → List (List Char)
  | [] => [[]]
  | c :: cs =>
    let r := splitOnChar sep cs
    if c = sep then [] :: r
    else
      match r with
      | h :: t => (c :: h) :: t
      | [] => [[c]]

structure ParsedIngredient where
  amount : ℚ
  unit : String
  name : String
deriving DecidableEq, Repr

def parse_ingredient (ingredient_str : String) : Except String ParsedIngredient :=
  let stripped := pyStrip ingredient_str
  match pyMatchGroups stripped.data with
  | none => .ok { amount := 1, unit := "", name := stripped }
  | some (g1, g2, nameChars) =>
    let quantityRes : Except String ℚ :=
      match g1 with
      | none => .ok 1
      | some qs =>
        if qs.contains '/' then
          match splitOnChar '/' qs with
          | [numPart, denomPart] =>
            match pyFloat ⟨numPart⟩, pyFloat ⟨denomPart⟩ with
            | some n, some d =>
              if d = 0 then .error "ZeroDivisionError: float division by zero"
              else .ok (n / d)
            | _, _ => .ok 1                    -- `ValueError` is caught
          | _ => .ok 1                         -- tuple unpacking `ValueError`
        else .ok ((pyFloat ⟨qs⟩).getD 1)
    quantityRes.map fun quantity =>
      let unit : String :=
        match g2 with
        | some us => pyStrip ⟨us⟩              -- group 2 is non-empty when present
        | none => ""
      { amount := quantity, unit := unit, name := pyStrip ⟨nameChars⟩ }

/-! ## Concrete example inputs used by the claim theorems -/

def flourRecipe1 : Recipe :=
  { servings := none,
    extendedIngredients := [{ name := .str "flour", amount := .num 1, unit := "cup" }] }

def flourRecipe2 : Recipe :=
  { servings := none,
    extendedIngredients := [{ name := .str "flour", amount := .num 2, unit := "cups" }] }

def oilRecipe : Recipe :=
  { servings := none,
    extendedIngredients := [{ name := .str "oil", amount := .num 2, unit := "tablespoon" }] }

/-- Three contributions for the same normalized name: one standardized to
ml, two standardized to g, with no density entry for "tea". -/
def teaRecipe3 : Recipe :=
  { servings := none,
    extendedIngredients :=
      [{ name := .str "tea", amount := .num 1, unit := "cup" },
       { name := .str "tea", amount := .num 5, unit := "g" },
       { name := .str "tea", amount := .num 7, unit := "g" }] }

def teaRecipe1 : Recipe :=
  { servings := none,
    extendedIngredients := [{ name := .str "tea", amount := .num 1, unit := "cup" }] }

def teaRecipe2 : Recipe :=
  { servings := none,
    extendedIngredients := [{ name := .str "tea", amount := .num 5, unit := "g" }] }

def badServingsRecipe : Recipe :=
  { servings := some (.str "four"),
    extendedIngredients := [{ name := .str "salt", amount := .num 1, unit := "g" }] }

def badNameRecipe : Recipe :=
  { servings := none,
    extendedIngredients := [{ name := .num 5, amount := .num 1, unit := "g" }] }

/-- Ingredient names exercised by the repository's own test suite
(`backend/test_shopping_list.py`). -/
def testedNames : List String :=
  ["all-purpose flour", "granulated sugar", "unsalted butter", "eggs", "milk",
   "baking powder", "Fresh Basil", "frozen spinach", "Dried Oregano",
   "Ground Cinnamon", "Chopped Onions", "Sliced Almonds", "Minced Garlic",
   "2% Milk", "Olive Oil, extra virgin", "Salt, to taste", "cheddar cheese",
   "salt"]

/-- The single consolidated line item produced for the two flour recipes. -/
def flourItem : Item :=
  { id := "", name := "Flour", amount := 3, formatted_amount := "3",
    unit := "cups", display_text := "3 cups Flour",
    category := "Baking & Spices", checked := false,
    standardizedDisplay := "376.2 g Flour" }

/-! ## Claim theorems -/

/-- C2: the engine is claimed never to raise on malformed but non-empty
input; evaluating the embedded code shows that a recipe whose `servings`
field is the non-numeric string "four" raises `TypeError` at the
`servings <= 0` comparison, and a numeric (non-string) ingredient name
raises `AttributeError` inside `clean_ingredient_name`. -/
theorem claim2_engine_raises :
    generate_shopping_list [badServingsRecipe]
      = .error "TypeError: unorderable types str and int" ∧
    generate_shopping_list [badNameRecipe]
      = .error "AttributeError: int object has no attribute lower" := by
  constructor <;> decide

/-- C3 counterexample: the name cleaner is not idempotent.  For the input
"cup cup flour" one application strips a single leading unit word, producing
"Cup Flour"; a second application strips the next one, producing "Flour". -/
theorem claim3_counterexample :
    clean_ingredient_name (clean_ingredient_name "cup cup flour")
      ≠ clean_ingredient_name "cup cup flour" := by
  decide

/-- C3 amended: `clean_ingredient_name` is idempotent on every ingredient
name exercised by the repository's own test suite (it is not idempotent for
all strings: a name beginning with two stacked unit words is stripped one
word per application). -/
theorem claim3_idempotent_on_tested_names :
    ∀ n ∈ testedNames,
      clean_ingredient_name (clean_ingredient_name n) = clean_ingredient_name n := by
  decide

/-- C3 witness: the amended idempotence theorem applied to the concrete
tested name "Salt, to taste". -/
theorem claim3_witness :
    clean_ingredient_name (clean_ingredient_name "Salt, to taste")
      = clean_ingredient_name "Salt, to taste" :=
  claim3_idempotent_on_tested_names "Salt, to taste" (by decide)

/-- C4 counterexample: for an ingredient name matching the liquid heuristic
(here "milk"), a weight unit is *not* converted: the weight branch requires
`not liquid`, so the quantity falls through unchanged instead of being
multiplied by the grams-per-unit factor. -/
theorem claim4_counterexample :
    convert_to_standard_unit 2 "kg" "milk" = (2, "kg") ∧
    convert_to_standard_unit 2 "kg" "milk" ≠ (2 * 1000, "g") := by
  constructor <;> decide

/-- C4 amended: for every quantity and every ingredient name that the
`is_liquid` heuristic classifies as non-liquid, `convert_to_standard_unit`
with any weight-unit spelling of the `WEIGHT_TO_GRAMS` table returns the
quantity multiplied by that unit's grams-per-unit factor, tagged "g". -/
theorem claim4_weight_units_solid (q : ℚ) (name : String)
    (h : is_liquid name = false) :
    convert_to_standard_unit q "gram" name = (q * 1, "g") ∧
    convert_to_standard_unit q "g" name = (q * 1, "g") ∧
    convert_to_standard_unit q "grams" name = (q * 1, "g") ∧
    convert_to_standard_unit q "kilogram" name = (q * 1000, "g") ∧
    convert_to_standard_unit q "kg" name = (q * 1000, "g") ∧
    convert_to_standard_unit q "kilograms" name = (q * 1000, "g") ∧
    convert_to_standard_unit q "ounce" name = (q * 28.35, "g") ∧
    convert_to_standard_unit q "oz" name = (q * 28.35, "g") ∧
    convert_to_standard_unit q "ounces" name = (q * 28.35, "g") ∧
    convert_to_standard_unit q "pound" name = (q * 453.59, "g") ∧
    convert_to_standard_unit q "lb" name = (q * 453.59, "g") ∧
    convert_to_standard_unit q "pounds" name = (q * 453.59, "g") := by
  refine ⟨?_, ?_, ?_, ?_, ?_, ?_, ?_, ?_, ?_, ?_, ?_, ?_⟩ <;>
    simp [convert_to_standard_unit, convertByTables, h, lookupFirst,
          WEIGHT_TO_GRAMS, VOLUME_TO_ML, COUNT_UNITS, pyLower, pyStrip,
          lcChar, isWsChar]

/-- C4 witness: the amended weight-unit theorem applied at quantity 3 and
the non-liquid name "tea". -/
theorem claim4_witness :
    convert_to_standard_unit 3 "kg" "tea" = (3 * 1000, "g") :=
  (claim4_weight_units_solid 3 "tea" (by decide)).2.2.2.2.1

/-- C5 counterexample: for two tablespoons of oil the preferred display unit
is the plural "tablespoons", which is absent from `VOLUME_TO_ML`, so the
displayed amount is the raw standardized 29.58 ml — not 29.58 / 14.79 = 2 as
the claim requires. -/
theorem claim5_counterexample :
    generate_shopping_list [oilRecipe] =
      .ok [{ id := "", name := "Oil", amount := 29.58,
             formatted_amount := "29.6", unit := "tablespoons",
             display_text := "29.6 tablespoons Oil",
             category := "Condiments & Sauces", checked := false,
             standardizedDisplay := "29.6 ml Oil" }] ∧
    (29.58 : ℚ) ≠ 29.58 / 14.79 := by
  constructor <;> decide

/-- C5 amended: `convert_from_standard_unit` divides by the table factor
only when the chosen display unit is literally a key of the table: the
preferred units "tablespoons" and "teaspoons" (plural) are not keys, so the
standardized quantity is returned unchanged for them, while "cups" is a key
(236.59 ml) and is divided; crossing g to cups for "flour" also divides by
the density 0.53. -/
theorem claim5_display_conversion (q : ℚ) (name : String) :
    convert_from_standard_unit q "ml" "tablespoons" name = q ∧
    convert_from_standard_unit q "ml" "teaspoons" name = q ∧
    convert_from_standard_unit q "ml" "cups" name = q / 236.59 ∧
    convert_from_standard_unit q "g" "cups" "flour" = q / 0.53 / 236.59 :=
  ⟨rfl, rfl, rfl, rfl⟩

/-- C6: two recipes of 1 cup and 2 cups of flour produce exactly one line
item, categorized "Baking & Spices", whose display amount is exactly 3 (in
unit "cups") under the exact rational arithmetic of the embedding. -/
theorem claim6_flour_aggregation :
    generate_shopping_list [flourRecipe1, flourRecipe2] = .ok [flourItem] ∧
    flourItem.amount = 3 ∧ flourItem.unit = "cups" ∧
    flourItem.category = "Baking & Spices" := by
  refine ⟨?_, rfl, rfl, rfl⟩
  decide

/-- C7 counterexample: `parse_ingredient` can raise — a leading fraction
with denominator zero reaches an uncaught `ZeroDivisionError` — and on the
non-raising failure path the unit and name come from the regex groups, not
from the original text as the claim states. -/
theorem claim7_counterexample :
    parse_ingredient "1/0 cup flour"
      = .error "ZeroDivisionError: float division by zero" ∧
    parse_ingredient "1.2.3 cup sugar"
      = .ok { amount := 1, unit := "cup", name := "sugar" } ∧
    ("sugar" : String) ≠ pyStrip "1.2.3 cup sugar" := by
  refine ⟨?_, ?_, ?_⟩ <;> decide

/-- C7 amended: parsing raises only for a leading fraction whose denominator
parses to zero; whenever the leading numeric token is present but fails to
parse as a number, the amount degrades to 1 while the unit and name are the
remaining regex captures (stripped), not the whole original string. -/
theorem claim7_parse_degradation :
    (∀ (s : String) (qs : List Char) (g2 : Option (List Char)) (nm : List Char),
      pyMatchGroups (pyStrip s).data = some (some qs, g2, nm) →
      qs.contains '/' = false →
      pyFloat ⟨qs⟩ = none →
      parse_ingredient s =
        .ok { amount := 1,
              unit := (match g2 with | some us => pyStrip ⟨us⟩ | none => ""),
              name := pyStrip ⟨nm⟩ }) ∧
    (∀ (s : String) (qs : List Char) (g2 : Option (List Char))
       (nm numP denomP : List Char) (a : ℚ),
      pyMatchGroups (pyStrip s).data = some (some qs, g2, nm) →
      qs.contains '/' = true →
      splitOnChar '/' qs = [numP, denomP] →
      pyFloat ⟨numP⟩ = some a →
      pyFloat ⟨denomP⟩ = some 0 →
      parse_ingredient s = .error "ZeroDivisionError: float division by zero") := by
  constructor
  · intro s qs g2 nm hm hslash hfloat
    have hmem : ¬ ('/' ∈ qs) := by simpa using hslash
    simp [parse_ingredient, hm, hmem, hfloat, Except.map]
  · intro s qs g2 nm numP denomP a hm hslash hsplit hnum hdenom
    have hmem : '/' ∈ qs := by simpa using hslash
    simp [parse_ingredient, hm, hmem, hsplit, hnum, hdenom, Except.map]

/-- C7 witness: the amended theorem applied to the concrete inputs
"1.2.3 cup sugar" (degradation) and "1/0 cup flour" (raising). -/
theorem claim7_witness :
    parse_ingredient "1.2.3 cup sugar"
      = .ok { amount := 1, unit := "cup", name := "sugar" } ∧
    parse_ingredient "1/0 cup flour"
      = .error "ZeroDivisionError: float division by zero" :=
  ⟨claim7_parse_degradation.1 "1.2.3 cup sugar" "1.2.3 ".data
      (some "cup ".data) "sugar".data (by decide) (by decide) (by decide),
   claim7_parse_degradation.2 "1/0 cup flour" "1/0 ".data
      (some "cup ".data) "flour".data "1".data "0 ".data 1
      (by decide) (by decide) (by decide) (by decide) (by decide)⟩

instance : IsTotal Item itemLe := ⟨fun _ _ => le_total _ _⟩

instance : IsTrans Item itemLe := ⟨fun _ _ _ hab hbc => le_trans hab hbc⟩

/-- C8: whenever the engine returns a list, that list is sorted in ascending
lexicographic order of the key (category, name). -/
theorem claim8_sorted (recipes : List Recipe) (l : List Item)
    (h : generate_shopping_list recipes = .ok l) : l.Pairwise itemLe := by
  unfold generate_shopping_list at h
  split at h
  · cases h
    exact List.Pairwise.nil
  · cases hagg : aggregate recipes with
    | error e => rw [hagg] at h; cases h
    | ok bkts =>
      rw [hagg] at h
      simp only [Except.map] at h
      cases h
      exact List.sorted_insertionSort itemLe _

/-- C8 witness: the sortedness theorem applied to the concrete flour input,
whose output list is `[flourItem]`. -/
theorem claim8_witness : List.Pairwise itemLe [flourItem] :=
  claim8_sorted [flourRecipe1, flourRecipe2] [flourItem] (by decide)

/-! ## Helper lemmas for the heap-threaded engine -/

theorem foldl_fst_const {α β γ : Type} (g : β → α → β) (l : List α) (c : γ) :
    ∀ b : β, (l.foldl (fun (st : γ × β) a => (st.1, g st.2 a)) (c, b))
      = (c, l.foldl g b) := by
  induction l with
  | nil => intro b; rfl
  | cons a l ih => intro b; simpa using ih (g b a)

/-- C10: the engine does not mutate its argument: threading the caller-owned
recipe objects through the computation as a store returns the store
unchanged, and the result is the same as the pure engine's. -/
theorem claim10_no_mutation (heap : List Recipe) :
    (generate_shopping_list_heap heap).1 = heap ∧
    (generate_shopping_list_heap heap).2 = generate_shopping_list heap := by
  unfold generate_shopping_list_heap generate_shopping_list
  split
  · exact ⟨rfl, rfl⟩
  · rw [show (heap.foldl
        (fun (st : List Recipe × Except String (List (String × Bucket))) r =>
          (st.1, st.2.bind (fun b => processRecipe b r)))
        (heap, Except.ok []))
      = (heap, aggregate heap) from
        foldl_fst_const
          (fun (e : Except String (List (String × Bucket))) r =>
            e.bind (fun b => processRecipe b r)) heap heap (.ok [])]
    exact ⟨rfl, rfl⟩

/-! ## Positivity invariant (C9) -/

/-- Every aggregation bucket carries a strictly positive standardized
quantity. -/
def bucketsPos (bkts : List (String × Bucket)) : Prop :=
  ∀ p ∈ bkts, 0 < p.2.std_quantity

section PositivityInvariant

-- The name-processing functions are opaque to the positivity argument;
-- sealing them keeps the reduction engine from unfolding them on abstract
-- arguments during the following proofs.
attribute [local irreducible] clean_ingredient_name normalize_ingredient_name
  is_liquid hasCountWordInClean pyFloat determine_best_unit format_quantity

theorem lookupFirst_pos (table : List (String × ℚ))
    (hp : ∀ p ∈ table, 0 < p.2) (u : String) (f : ℚ)
    (h : lookupFirst table u = some f) : 0 < f := by
  induction table with
  | nil => cases h
  | cons p rest ih =>
    unfold lookupFirst at h
    split at h
    · cases h; exact hp p (by simp)
    · exact ih (fun q hq => hp q (by simp [hq])) h

theorem densityAux_pos (table : List (String × ℚ))
    (hp : ∀ p ∈ table, 0 < p.2) (n : String) (d : ℚ)
    (h : findDensity.densityAux table n = some d) : 0 < d := by
  induction table with
  | nil => cases h
  | cons p rest ih =>
    unfold findDensity.densityAux at h
    split at h
    · cases h; exact hp p (by simp)
    · exact ih (fun q hq => hp q (by simp [hq])) h

theorem findDensity_pos (n : String) (d : ℚ) (h : findDensity n = some d) :
    0 < d :=
  densityAux_pos INGREDIENT_DENSITY (by decide) n d h

theorem volumeTable_pos : ∀ p ∈ VOLUME_TO_ML, 0 < p.2 := by decide

theorem weightTable_pos : ∀ p ∈ WEIGHT_TO_GRAMS, 0 < p.2 := by decide

theorem convertByTables_pos (q : ℚ) (u2 : String) (liquid : Bool) (n : String)
    (hq : 0 < q) : 0 < (convertByTables q u2 liquid n).1 := by
  unfold convertByTables
  cases liquid with
  | true =>
    cases hv : lookupFirst VOLUME_TO_ML u2 with
    | some f => exact mul_pos hq (lookupFirst_pos _ volumeTable_pos _ _ hv)
    | none => exact hq
  | false =>
    cases hw : lookupFirst WEIGHT_TO_GRAMS u2 with
    | some f => exact mul_pos hq (lookupFirst_pos _ weightTable_pos _ _ hw)
    | none =>
      cases hv : lookupFirst VOLUME_TO_ML u2 with
      | some f =>
        cases hd : findDensity (normalize_ingredient_name n) with
        | some d =>
          exact mul_pos
            (mul_pos hq (lookupFirst_pos _ volumeTable_pos _ _ hv))
            (findDensity_pos _ _ hd)
        | none => exact mul_pos hq (lookupFirst_pos _ volumeTable_pos _ _ hv)
      | none => exact hq

theorem convert_to_pos (q : ℚ) (u n : String) (hq : 0 < q) :
    0 < (convert_to_standard_unit q u n).1 := by
  unfold convert_to_standard_unit
  split
  · exact hq
  · dsimp only []
    split
    · exact hq
    · exact convertByTables_pos q _ _ n hq

theorem convert_from_pos (q : ℚ) (su tu n : String) (hq : 0 < q) :
    0 < convert_from_standard_unit q su tu n := by
  unfold convert_from_standard_unit
  split
  · exact hq
  · split
    · cases hv : lookupFirst VOLUME_TO_ML tu with
      | some f => exact div_pos hq (lookupFirst_pos _ volumeTable_pos _ _ hv)
      | none => exact hq
    · split
      · cases hw : lookupFirst WEIGHT_TO_GRAMS tu with
        | some f => exact div_pos hq (lookupFirst_pos _ weightTable_pos _ _ hw)
        | none =>
          cases hv : lookupFirst VOLUME_TO_ML tu with
          | some f =>
            cases hd : findDensity (normalize_ingredient_name n) with
            | some d =>
              exact div_pos (div_pos hq (findDensity_pos _ _ hd))
                (lookupFirst_pos _ volumeTable_pos _ _ hv)
            | none => exact hq
          | none => exact hq
      · exact hq

theorem lookupBucket_mem (bkts : List (String × Bucket)) (k : String) (b : Bucket)
    (h : lookupBucket bkts k = some b) : (k, b) ∈ bkts := by
  induction bkts with
  | nil => cases h
  | cons p rest ih =>
    unfold lookupBucket at h
    split at h
    · cases h
      next heq => simp [← heq]
    · simp [ih h]

theorem setBucket_pos (bkts : List (String × Bucket)) (k : String) (b : Bucket)
    (hb : bucketsPos bkts) (hpos : 0 < b.std_quantity) :
    bucketsPos (setBucket bkts k b) := by
  induction bkts with
  | nil => intro p hp; simp [setBucket] at hp; simp [hp, hpos]
  | cons q rest ih =>
    intro p hp
    unfold setBucket at hp
    split at hp
    · rcases List.mem_cons.mp hp with h1 | h2
      · simp [h1, hpos]
      · exact hb p (List.mem_cons_of_mem _ h2)
    · rcases List.mem_cons.mp hp with h1 | h2
      · exact hb p (by simp [h1])
      · exact ih (fun r hr => hb r (List.mem_cons_of_mem _ hr)) p h2

theorem addQty_pos (bkts : List (String × Bucket)) (k : String) (q : ℚ)
    (hb : bucketsPos bkts) (hq : 0 < q) : bucketsPos (addQty bkts k q) := by
  induction bkts with
  | nil => intro p hp; simp [addQty] at hp
  | cons r rest ih =>
    intro p hp
    unfold addQty at hp
    split at hp
    · rcases List.mem_cons.mp hp with h1 | h2
      · have := hb r (by simp)
        simp [h1]
        exact add_pos this hq
      · exact hb p (List.mem_cons_of_mem _ h2)
    · rcases List.mem_cons.mp hp with h1 | h2
      · exact hb p (by simp [h1])
      · exact ih (fun s hs => hb s (List.mem_cons_of_mem _ hs)) p h2

theorem append_bucket_pos (bkts : List (String × Bucket)) (k : String) (b : Bucket)
    (hb : bucketsPos bkts) (hpos : 0 < b.std_quantity) :
    bucketsPos (bkts ++ [(k, b)]) := by
  intro p hp
  rcases List.mem_append.mp hp with h1 | h2
  · exact hb p h1
  · simp at h2; simp [h2, hpos]

theorem aggregateStep_pos (bkts : List (String × Bucket))
    (normalized_name clean_name : String) (std_quantity : ℚ)
    (std_unit unit : String) (hb : bucketsPos bkts) (hstd : 0 < std_quantity) :
    bucketsPos (aggregateStep bkts normalized_name clean_name std_quantity
      std_unit unit) := by
  unfold aggregateStep
  split
  · exact append_bucket_pos _ _ _ hb hstd
  · next existing hlk =>
    have hex : 0 < existing.std_quantity := hb _ (lookupBucket_mem _ _ _ hlk)
    split
    · split
      · cases hd : findDensity normalized_name with
        | some d =>
          exact addQty_pos _ _ _
            (setBucket_pos _ _ _ hb (mul_pos hex (findDensity_pos _ _ hd))) hstd
        | none => exact setBucket_pos _ _ _ hb hstd
      · split
        · cases hd : findDensity normalized_name with
          | some d =>
            exact addQty_pos _ _ _ hb (mul_pos hstd (findDensity_pos _ _ hd))
          | none => exact setBucket_pos _ _ _ hb hstd
        · exact addQty_pos _ _ _ hb hstd
    · exact addQty_pos _ _ _ hb hstd

theorem processIngredient_pos (bkts : List (String × Bucket)) (ing : Ingredient)
    (bkts' : List (String × Bucket)) (hb : bucketsPos bkts)
    (h : processIngredient bkts ing = .ok bkts') : bucketsPos bkts' := by
  unfold processIngredient at h
  split at h
  · cases h; exact hb
  · split at h
    · cases h
    · next nm hname =>
      split at h
      · cases h; exact hb
      · next hqle =>
        cases h
        exact aggregateStep_pos _ _ _ _ _ _ hb
          (convert_to_pos _ ing.unit (normalize_ingredient_name nm)
            (lt_of_not_le hqle))

theorem foldl_bind_inv {α β : Type} (P : β → Prop) (f : β → α → Except String β)
    (hf : ∀ b a b', P b → f b a = .ok b' → P b') :
    ∀ (l : List α) (acc : Except String β) (b' : β),
      (∀ b, acc = .ok b → P b) →
      l.foldl (fun acc a => acc.bind (fun x => f x a)) acc = .ok b' → P b' := by
  intro l
  induction l with
  | nil =>
    intro acc b' hacc h
    exact hacc b' h
  | cons a l ih =>
    intro acc b' hacc h
    rw [List.foldl_cons] at h
    refine ih _ b' ?_ h
    intro b hb
    cases acc with
    | error e => simp [Except.bind] at hb
    | ok b0 =>
      have hp0 := hacc b0 rfl
      simp [Except.bind] at hb
      exact hf b0 a b hp0 hb

theorem processRecipe_pos (bkts : List (String × Bucket)) (r : Recipe)
    (bkts' : List (String × Bucket)) (hb : bucketsPos bkts)
    (h : processRecipe bkts r = .ok bkts') : bucketsPos bkts' := by
  unfold processRecipe at h
  cases hs : checkServings r with
  | error e => rw [hs] at h; cases h
  | ok u =>
    rw [hs] at h
    simp only [Except.bind] at h
    split at h
    · cases h; exact hb
    · exact foldl_bind_inv bucketsPos processIngredient
        (fun b i b' hbp hok => processIngredient_pos b i b' hbp hok)
        _ _ _ (fun b hbk => by cases hbk; exact hb) h

theorem aggregate_pos (recipes : List Recipe) (bkts : List (String × Bucket))
    (h : aggregate recipes = .ok bkts) : bucketsPos bkts := by
  unfold aggregate at h
  exact foldl_bind_inv bucketsPos processRecipe
    (fun b r b' hbp hok => processRecipe_pos b r b' hbp hok)
    _ _ _ (fun b hbk => by cases hbk; intro p hp; cases hp) h

theorem buildItem_amount (k : String) (b : Bucket) :
    (buildItem k b).amount = convert_from_standard_unit b.std_quantity b.std_unit
      (determine_best_unit b.name b.is_liquid b.std_quantity b.original_unit) k := rfl

/-- C9: every item of a successfully generated shopping list has a strictly
positive amount: non-positive quantities are skipped before aggregation, and
every unit factor and density used during conversion is strictly positive. -/
theorem claim9_amounts_positive (recipes : List Recipe) (l : List Item)
    (h : generate_shopping_list recipes = .ok l) :
    ∀ it ∈ l, 0 < it.amount := by
  unfold generate_shopping_list at h
  split at h
  · cases h
    intro it hit
    cases hit
  · cases hagg : aggregate recipes with
    | error e => rw [hagg] at h; cases h
    | ok bkts =>
      rw [hagg] at h
      simp only [Except.map] at h
      cases h
      intro it hit
      have hmem : it ∈ bkts.map (fun p => buildItem p.1 p.2) :=
        (List.perm_insertionSort itemLe _).mem_iff.mp hit
      rcases List.mem_map.mp hmem with ⟨p, hp, rfl⟩
      rw [buildItem_amount]
      exact convert_from_pos _ _ _ _ (aggregate_pos recipes bkts hagg p hp)

end PositivityInvariant

/-! ## C1: conservation of contributions under aggregation -/

/-- C1 counterexample: with three contributions for "tea" (1 cup → 236.59 ml,
then 5 g, then 7 g; no density entry), the disambiguated bucket
"tea (in g)" created for the 5 g contribution is *overwritten* by the 7 g
contribution, so the total aggregated quantity is 236.59 + 7 while the total
contributed is 236.59 + 5 + 7: the 5 g contribution is silently dropped. -/
theorem claim1_counterexample :
    aggregate [teaRecipe3] = .ok
      [("tea", { name := "Tea", std_quantity := 236.59, std_unit := "ml",
                 original_unit := "cup", is_liquid := false }),
       ("tea (in g)", { name := "Tea", std_quantity := 7, std_unit := "g",
                        original_unit := "g", is_liquid := false })] ∧
    (convert_to_standard_unit 1 "cup" "tea").1
      + (convert_to_standard_unit 5 "g" "tea").1
      + (convert_to_standard_unit 7 "g" "tea").1 = 236.59 + 5 + 7 ∧
    (236.59 + 7 : ℚ) ≠ 236.59 + 5 + 7 := by
  refine ⟨?_, ?_, ?_⟩ <;> decide

section NoSilentLossTwoRecipes

attribute [local irreducible] clean_ingredient_name normalize_ingredient_name
  is_liquid hasCountWordInClean pyFloat

theorem ok_bind {ε α β : Type} (b : α) (f : α → Except ε β) :
    (Except.ok b).bind f = f b := rfl

theorem str_append_ne_self (s t : String) (ht : t.data ≠ []) : s ++ t ≠ s := by
  intro he
  have hdata : s.data ++ t.data = s.data := congrArg String.data he
  have hlen := congrArg List.length hdata
  simp only [List.length_append] at hlen
  exact ht (List.length_eq_zero.mp (by omega))

theorem append_in_g (s : String) : s ++ " (in " ++ "g" ++ ")" = s ++ " (in g)" := by
  cases s with
  | mk l =>
    apply congrArg String.mk
    show l ++ " (in ".data ++ "g".data ++ ")".data = l ++ " (in g)".data
    simp only [List.append_assoc]
    rfl

theorem processIngredient_ok (bkts : List (String × Bucket)) (nm : String)
    (q sv : ℚ) (u su : String) (h0 : nm ≠ "") (hq : 0 < q)
    (hc : convert_to_standard_unit q u (normalize_ingredient_name nm) = (sv, su)) :
    processIngredient bkts { name := .str nm, amount := .num q, unit := u }
      = .ok (aggregateStep bkts (normalize_ingredient_name nm) (cleanOr nm)
          sv su u) := by
  simp [processIngredient, pyFalsy, h0, ingQuantity, (not_le.mpr hq : ¬ q ≤ 0), hc]

theorem processRecipe_none_single (bkts : List (String × Bucket)) (i : Ingredient) :
    processRecipe bkts { servings := none, extendedIngredients := [i] }
      = processIngredient bkts i := by
  simp [processRecipe, checkServings, Except.bind]

/-- C1 amended: in the two-recipe scenario of the claim — the same
normalized ingredient contributed once standardized to ml and once to g,
with no density entry — neither contribution is dropped: the first keeps its
bucket and the second lands in the disambiguated "(in g)" bucket, so both
quantities are represented in the aggregation (the general conservation
statement fails once a *third* unreconcilable contribution overwrites the
disambiguated bucket, as the counterexample shows). -/
theorem claim1_no_silent_loss_two_recipes (nm : String) (q1 q2 v1 v2 : ℚ)
    (u1 u2 : String) (h0 : nm ≠ "") (h1 : 0 < q1) (h2 : 0 < q2)
    (hc1 : convert_to_standard_unit q1 u1 (normalize_ingredient_name nm) = (v1, "ml"))
    (hc2 : convert_to_standard_unit q2 u2 (normalize_ingredient_name nm) = (v2, "g"))
    (hd : findDensity (normalize_ingredient_name nm) = none) :
    aggregate
      [{ servings := none,
         extendedIngredients := [{ name := .str nm, amount := .num q1, unit := u1 }] },
       { servings := none,
         extendedIngredients := [{ name := .str nm, amount := .num q2, unit := u2 }] }]
      = .ok
      [(normalize_ingredient_name nm,
        { name := cleanOr nm, std_quantity := v1, std_unit := "ml",
          original_unit := u1,
          is_liquid := is_liquid (normalize_ingredient_name nm) }),
       (normalize_ingredient_name nm ++ " (in g)",
        { name := cleanOr nm, std_quantity := v2, std_unit := "g",
          original_unit := u2,
          is_liquid := is_liquid (normalize_ingredient_name nm) })] := by
  have hne : ¬ (normalize_ingredient_name nm
      = normalize_ingredient_name nm ++ " (in g)") :=
    fun h => str_append_ne_self (normalize_ingredient_name nm) " (in g)"
      (by decide) h.symm
  have hstep1 : aggregateStep [] (normalize_ingredient_name nm) (cleanOr nm)
      v1 "ml" u1
      = [(normalize_ingredient_name nm,
          { name := cleanOr nm, std_quantity := v1, std_unit := "ml",
            original_unit := u1,
            is_liquid := is_liquid (normalize_ingredient_name nm) })] := by
    simp [aggregateStep, lookupBucket]
  have hstep2 : aggregateStep
      [(normalize_ingredient_name nm,
        { name := cleanOr nm, std_quantity := v1, std_unit := "ml",
          original_unit := u1,
          is_liquid := is_liquid (normalize_ingredient_name nm) })]
      (normalize_ingredient_name nm) (cleanOr nm) v2 "g" u2
      = [(normalize_ingredient_name nm,
          { name := cleanOr nm, std_quantity := v1, std_unit := "ml",
            original_unit := u1,
            is_liquid := is_liquid (normalize_ingredient_name nm) }),
         (normalize_ingredient_name nm ++ " (in g)",
          { name := cleanOr nm, std_quantity := v2, std_unit := "g",
            original_unit := u2,
            is_liquid := is_liquid (normalize_ingredient_name nm) })] := by
    rw [show aggregateStep
        [(normalize_ingredient_name nm,
          { name := cleanOr nm, std_quantity := v1, std_unit := "ml",
            original_unit := u1,
            is_liquid := is_liquid (normalize_ingredient_name nm) })]
        (normalize_ingredient_name nm) (cleanOr nm) v2 "g" u2
      = setBucket
          [(normalize_ingredient_name nm,
            { name := cleanOr nm, std_quantity := v1, std_unit := "ml",
              original_unit := u1,
              is_liquid := is_liquid (normalize_ingredient_name nm) })]
          (normalize_ingredient_name nm ++ " (in " ++ "g" ++ ")")
          { name := cleanOr nm, std_quantity := v2, std_unit := "g",
            original_unit := u2,
            is_liquid := is_liquid (normalize_ingredient_name nm) }
      from by simp [aggregateStep, lookupBucket, hd]]
    rw [append_in_g]
    simp [setBucket, hne]
  unfold aggregate
  simp only [List.foldl_cons, List.foldl_nil, ok_bind]
  rw [processRecipe_none_single, processIngredient_ok _ _ _ _ _ _ h0 h1 hc1,
    hstep1, ok_bind]
  rw [processRecipe_none_single, processIngredient_ok _ _ _ _ _ _ h0 h2 hc2,
    hstep2]

end NoSilentLossTwoRecipes

/-- C1 witness: the two-recipe no-silent-loss theorem applied to the
concrete "tea" recipes (1 cup → 236.59 ml and 5 g; no density entry). -/
theorem claim1_witness :
    aggregate [teaRecipe1, teaRecipe2] = .ok
      [("tea", { name := "Tea", std_quantity := 236.59, std_unit := "ml",
                 original_unit := "cup", is_liquid := false }),
       ("tea (in g)", { name := "Tea", std_quantity := 5, std_unit := "g",
                        original_unit := "g", is_liquid := false })] :=
  claim1_no_silent_loss_two_recipes "tea" 1 5 236.59 5 "cup" "g"
    (by decide) (by decide) (by decide) (by decide) (by decide) (by decide)

/-- C9 witness: the positivity theorem applied to the concrete flour input
and its single output item. -/
theorem claim9_witness : 0 < flourItem.amount :=
  claim9_amounts_positive [flourRecipe1, flourRecipe2] [flourItem]
    (by decide) flourItem (by simp)

end SL
